import Mathlib

/-!
Verification development for the ShopSage pipeline (src/shopsage_core.py).

The pipeline is embedded shallowly:
  pure string manipulation (regular-expression split, strip, slice, JSON
  parse/serialize) becomes Lean functions on strings and character lists;
  the two network backends (the Tavily search API and the OpenAI chat API)
  become oracle functions passed as parameters; the sequence of backend
  invocations a run performs is returned as an explicit trace; the one
  uncaught exception path (calling .get on a non-dict) becomes Except.
-/

namespace ShopSage

/-! ### Python string primitives

Character classes used by the source: the whitespace set of Python
(str.isspace and the regex class \s agree on this fixed code-point list),
the regex class . (any character except the newline), and the
case-insensitive letters of the literal token "vs" under re.IGNORECASE
(for the letter s this includes U+017F, which Python case-folds to s). -/

def isPySpace (c : Char) : Bool :=
  (0x9 ≤ c.toNat && c.toNat ≤ 0xd) ||
  (0x1c ≤ c.toNat && c.toNat ≤ 0x1f) ||
  c.toNat = 0x20 || c.toNat = 0x85 || c.toNat = 0xa0 || c.toNat = 0x1680 ||
  (0x2000 ≤ c.toNat && c.toNat ≤ 0x200a) ||
  c.toNat = 0x2028 || c.toNat = 0x2029 || c.toNat = 0x202f ||
  c.toNat = 0x205f || c.toNat = 0x3000

def pyDot (c : Char) : Bool := c ≠ '\n'

def isVChar (c : Char) : Bool := c = 'v' || c = 'V'

def isSChar (c : Char) : Bool := c = 's' || c = 'S' || c.toNat = 0x17f

/-- Python str.strip() with no argument: drop leading and trailing
whitespace (the isPySpace set). -/
def pyStrip (s : String) : String :=
  String.mk (((s.data.dropWhile isPySpace).reverse.dropWhile isPySpace).reverse)

/-- Python slice s[:n], which counts code points. -/
def pySlice (s : String) (n : Nat) : String :=
  String.mk (s.data.take n)

/-! ### The "A vs B" question split

Embeds re.search(r"(.+?)\s+vs\.?\s+(.+?)(?:\?|$)", question, re.IGNORECASE)
from ShopSage.run_pipeline, reproducing the backtracking order of the
engine: leftmost start position first; group 1 is lazy (shortest first);
each \s+ is greedy (longest whitespace run first, then shorter); \.? is
greedy (the dot branch first); group 2 is lazy; the terminator tries a
literal question mark before $  ($ matches at the end of the string or
just before a terminating newline, as in Python without MULTILINE). -/

/-- Does the rest of the input allow the (?:\?|$) terminator here? -/
def vsTerminator : List Char → Bool
  | [] => true
  | ['\n'] => true
  | '?' :: _ => true
  | _ => false

/-- Lazy (.+?) followed by (?:\?|$): return the shortest nonempty run of
non-newline characters after which the terminator matches. -/
def group2Lazy : List Char → Option (List Char)
  | [] => none
  | c :: rest =>
    if c = '\n' then none
    else if vsTerminator rest then some [c]
    else match group2Lazy rest with
         | some g => some (c :: g)
         | none => none

/-- Greedy \s+ then group 2: try the whitespace run lengths from k down
to 1, taking the first that lets the rest of the pattern match. -/
def tryWsLens : Nat → List Char → Option (List Char)
  | 0, _ => none
  | k + 1, l =>
    match group2Lazy (l.drop (k + 1)) with
    | some g => some g
    | none => tryWsLens k l

def wsThenGroup2 (l : List Char) : Option (List Char) :=
  tryWsLens ((l.takeWhile isPySpace).length) l

/-- After the whitespace preceding it: the literal vs (case-insensitive),
the greedy optional dot, then \s+ and group 2. -/
def sepAfterWs : List Char → Option (List Char)
  | v :: s :: rest =>
    if isVChar v && isSChar s then
      match rest with
      | '.' :: rest2 =>
        match wsThenGroup2 rest2 with
        | some g => some g
        | none => wsThenGroup2 rest
      | _ => wsThenGroup2 rest
    else none
  | _ => none

/-- Greedy \s+ then the vs token: whitespace run lengths from k down to 1. -/
def trySepWs : Nat → List Char → Option (List Char)
  | 0, _ => none
  | k + 1, l =>
    match sepAfterWs (l.drop (k + 1)) with
    | some g => some g
    | none => trySepWs k l

def matchSep (l : List Char) : Option (List Char) :=
  trySepWs ((l.takeWhile isPySpace).length) l

/-- Lazy group 1 at a fixed start: grow it one non-newline character at a
time, attempting the separator and the rest of the pattern after each. -/
def g1Loop (acc : List Char) : List Char → Option (List Char × List Char)
  | [] => none
  | c :: rest =>
    if c = '\n' then none
    else match matchSep rest with
         | some g2 => some (acc ++ [c], g2)
         | none => g1Loop (acc ++ [c]) rest

/-- re.search over the whole pattern: try each start position from the
left; the result is (group 1, group 2) of the first match. -/
def vsSearchList : List Char → Option (List Char × List Char)
  | [] => none
  | c :: rest =>
    match g1Loop [] (c :: rest) with
    | some r => some r
    | none => vsSearchList rest

def vsSearch (s : String) : Option (String × String) :=
  (vsSearchList s.data).map (fun p => (String.mk p.1, String.mk p.2))

/-! ### JSON values

Models the values Python json.loads can return.  Numbers keep their
source lexeme (the int/float distinction never matters to the pipeline);
objects keep their members in source order, and key lookup takes the last
binding, as building a Python dict from a JSON object does. -/

inductive Json where
  | null
  | bool (b : Bool)
  | num (lexeme : String)
  | str (s : String)
  | arr (items : List Json)
  | obj (members : List (String × Json))

/-- Python dict lookup after json.loads: the last binding of the key wins. -/
def lookupLast (kvs : List (String × Json)) (key : String) : Option Json :=
  (kvs.reverse.find? (fun kv => kv.1 = key)).map (fun kv => kv.2)

/-! ### json.loads

A recursive-descent parser for the grammar Python json.loads accepts in
its default strict mode: the standard JSON grammar plus the constants
NaN, Infinity and -Infinity; surrounding whitespace restricted to space,
tab, newline, carriage return; unescaped control characters rejected
inside string literals; the whole input must be consumed.  Escaped
surrogate pairs combine into one code point; a lone escaped surrogate is
outside the embedded string model and maps through Char.ofNat. -/

def jsonWsChar (c : Char) : Bool :=
  c = ' ' || c = '\t' || c = '\n' || c = '\r'

def skipJsonWs (l : List Char) : List Char := l.dropWhile jsonWsChar

def hexDigitValue (c : Char) : Option Nat :=
  let n := c.toNat
  if 48 ≤ n && n ≤ 57 then some (n - 48)
  else if 97 ≤ n && n ≤ 102 then some (n - 87)
  else if 65 ≤ n && n ≤ 70 then some (n - 55)
  else none

def hex4Val : List Char → Option (Nat × List Char)
  | a :: b :: c :: d :: rest =>
    match hexDigitValue a, hexDigitValue b, hexDigitValue c, hexDigitValue d with
    | some x, some y, some z, some w =>
      some (x * 4096 + y * 256 + z * 16 + w, rest)
    | _, _, _, _ => none
  | _ => none

def isHighSurrogate (n : Nat) : Bool := 0xd800 ≤ n && n ≤ 0xdbff

def isLowSurrogate (n : Nat) : Bool := 0xdc00 ≤ n && n ≤ 0xdfff

/-- Body of a JSON string literal, after the opening quote. -/
def stringLitTail : Nat → List Char → List Char → Option (String × List Char)
  | 0, _, _ => none
  | _ + 1, _, [] => none
  | fuel + 1, acc, c :: rest =>
    if c = '"' then some (String.mk acc.reverse, rest)
    else if c = '\\' then
      match rest with
      | [] => none
      | e :: rest2 =>
        if e = '"' then stringLitTail fuel ('"' :: acc) rest2
        else if e = '\\' then stringLitTail fuel ('\\' :: acc) rest2
        else if e = '/' then stringLitTail fuel ('/' :: acc) rest2
        else if e = 'b' then stringLitTail fuel ('\x08' :: acc) rest2
        else if e = 'f' then stringLitTail fuel ('\x0c' :: acc) rest2
        else if e = 'n' then stringLitTail fuel ('\n' :: acc) rest2
        else if e = 'r' then stringLitTail fuel ('\r' :: acc) rest2
        else if e = 't' then stringLitTail fuel ('\t' :: acc) rest2
        else if e = 'u' then
          match hex4Val rest2 with
          | none => none
          | some (n, rest3) =>
            if isHighSurrogate n then
              match rest3 with
              | '\\' :: 'u' :: rest4 =>
                match hex4Val rest4 with
                | some (m, rest5) =>
                  if isLowSurrogate m then
                    stringLitTail fuel
                      (Char.ofNat (0x10000 + (n - 0xd800) * 0x400 + (m - 0xdc00)) :: acc) rest5
                  else stringLitTail fuel (Char.ofNat n :: acc) rest3
                | none => stringLitTail fuel (Char.ofNat n :: acc) rest3
              | _ => stringLitTail fuel (Char.ofNat n :: acc) rest3
            else stringLitTail fuel (Char.ofNat n :: acc) rest3
        else none
    else if c.toNat < 0x20 then none
    else stringLitTail fuel (c :: acc) rest

/-- A JSON number lexeme: -?(0|[1-9][0-9]*)(\.[0-9]+)?([eE][+-]?[0-9]+)? -/
def parseNumLexeme (l : List Char) : Option (List Char × List Char) :=
  let (sign, l1) := match l with
                    | '-' :: rest => (['-'], rest)
                    | _ => ([], l)
  match l1 with
  | [] => none
  | c :: _ =>
    if ¬ c.isDigit then none
    else
      let (intPart, l2) :=
        if c = '0' then ([c], l1.drop 1)
        else (l1.takeWhile Char.isDigit, l1.dropWhile Char.isDigit)
      let (fracPart, l3) :=
        match l2 with
        | '.' :: d :: _ =>
          if d.isDigit then
            ('.' :: (l2.drop 1).takeWhile Char.isDigit,
             (l2.drop 1).dropWhile Char.isDigit)
          else ([], l2)
        | _ => ([], l2)
      let (expPart, l4) :=
        match l3 with
        | e :: rest =>
          if e = 'e' || e = 'E' then
            let (signE, restE) := match rest with
                                  | '+' :: r => (['+'], r)
                                  | '-' :: r => (['-'], r)
                                  | _ => ([], rest)
            match restE with
            | d :: _ =>
              if d.isDigit then
                (e :: (signE ++ restE.takeWhile Char.isDigit),
                 restE.dropWhile Char.isDigit)
              else ([], l3)
            | [] => ([], l3)
          else ([], l3)
        | [] => ([], l3)
      some (sign ++ intPart ++ fracPart ++ expPart, l4)

mutual

def parseValue : Nat → List Char → Option (Json × List Char)
  | 0, _ => none
  | fuel + 1, l =>
    match skipJsonWs l with
    | [] => none
    | 'n' :: 'u' :: 'l' :: 'l' :: rest => some (.null, rest)
    | 't' :: 'r' :: 'u' :: 'e' :: rest => some (.bool true, rest)
    | 'f' :: 'a' :: 'l' :: 's' :: 'e' :: rest => some (.bool false, rest)
    | 'N' :: 'a' :: 'N' :: rest => some (.num "NaN", rest)
    | 'I' :: 'n' :: 'f' :: 'i' :: 'n' :: 'i' :: 't' :: 'y' :: rest =>
      some (.num "Infinity", rest)
    | '-' :: 'I' :: 'n' :: 'f' :: 'i' :: 'n' :: 'i' :: 't' :: 'y' :: rest =>
      some (.num "-Infinity", rest)
    | '"' :: rest =>
      (stringLitTail (rest.length + 1) [] rest).map (fun p => (.str p.1, p.2))
    | '[' :: rest =>
      (match skipJsonWs rest with
       | ']' :: rest2 => some (.arr [], rest2)
       | l2 => (parseArrItems fuel l2).map (fun p => (.arr p.1, p.2)))
    | '\x7b' :: rest =>
      (match skipJsonWs rest with
       | '\x7d' :: rest2 => some (.obj [], rest2)
       | l2 => (parseObjItems fuel l2).map (fun p => (.obj p.1, p.2)))
    | l2 =>
      (parseNumLexeme l2).map (fun p => (.num (String.mk p.1), p.2))

def parseArrItems : Nat → List Char → Option (List Json × List Char)
  | 0, _ => none
  | fuel + 1, l =>
    match parseValue fuel l with
    | none => none
    | some (v, rest) =>
      match skipJsonWs rest with
      | ',' :: rest2 =>
        (parseArrItems fuel rest2).map (fun p => (v :: p.1, p.2))
      | ']' :: rest2 => some ([v], rest2)
      | _ => none

def parseObjItems : Nat → List Char → Option (List (String × Json) × List Char)
  | 0, _ => none
  | fuel + 1, l =>
    match skipJsonWs l with
    | '"' :: rest =>
      match stringLitTail (rest.length + 1) [] rest with
      | none => none
      | some (k, rest2) =>
        match skipJsonWs rest2 with
        | ':' :: rest3 =>
          match parseValue fuel rest3 with
          | none => none
          | some (v, rest4) =>
            match skipJsonWs rest4 with
            | ',' :: rest5 =>
              (parseObjItems fuel rest5).map (fun p => ((k, v) :: p.1, p.2))
            | '\x7d' :: rest5 => some ([(k, v)], rest5)
            | _ => none
        | _ => none
    | _ => none

end

/-- Python json.loads: parse the whole input, allowing trailing
whitespace only; none models a raised json.JSONDecodeError. -/
def jsonLoads (s : String) : Option Json :=
  match parseValue (2 * s.length + 8) s.data with
  | some (v, rest) => if skipJsonWs rest = [] then some v else none
  | none => none

/-! ### json.dumps(obj, indent=2)

Serialization as judge_products uses it to build the user prompt: default
ensure_ascii (characters outside space..tilde become \uXXXX escapes,
astral code points as surrogate pairs), indent 2, item separator comma
and key separator colon-space. -/

def hexDigit (n : Nat) : Char :=
  if n < 10 then Char.ofNat ('0'.toNat + n) else Char.ofNat ('a'.toNat + n - 10)

def hex4 (n : Nat) : String :=
  String.mk [hexDigit (n / 4096 % 16), hexDigit (n / 256 % 16),
             hexDigit (n / 16 % 16), hexDigit (n % 16)]

def uEscape (n : Nat) : String :=
  if n ≤ 0xffff then "\\u" ++ hex4 n
  else "\\u" ++ hex4 (0xd800 + (n - 0x10000) / 0x400) ++
       "\\u" ++ hex4 (0xdc00 + (n - 0x10000) % 0x400)

def jsonEscapeChar (c : Char) : String :=
  if c = '"' then "\\\""
  else if c = '\\' then "\\\\"
  else if c = '\n' then "\\n"
  else if c = '\r' then "\\r"
  else if c = '\t' then "\\t"
  else if c = '\x08' then "\\b"
  else if c = '\x0c' then "\\f"
  else if c.toNat < 0x20 || 0x7e < c.toNat then uEscape c.toNat
  else String.mk [c]

def jsonQuote (s : String) : String :=
  "\"" ++ String.join (s.data.map jsonEscapeChar) ++ "\""

def indentOf (level : Nat) : String := String.mk (List.replicate (2 * level) ' ')

mutual

def dumpsVal (level : Nat) : Json → String
  | .null => "null"
  | .bool true => "true"
  | .bool false => "false"
  | .num lex => lex
  | .str s => jsonQuote s
  | .arr [] => "[]"
  | .arr items =>
    "[\n" ++ dumpsArrItems (level + 1) items ++ "\n" ++ indentOf level ++ "]"
  | .obj [] => "\x7b\x7d"
  | .obj members =>
    "\x7b\n" ++ dumpsObjItems (level + 1) members ++ "\n" ++ indentOf level ++ "\x7d"

def dumpsArrItems (level : Nat) : List Json → String
  | [] => ""
  | [v] => indentOf level ++ dumpsVal level v
  | v :: rest =>
    indentOf level ++ dumpsVal level v ++ ",\n" ++ dumpsArrItems level rest

def dumpsObjItems (level : Nat) : List (String × Json) → String
  | [] => ""
  | [(k, v)] => indentOf level ++ jsonQuote k ++ ": " ++ dumpsVal level v
  | (k, v) :: rest =>
    indentOf level ++ jsonQuote k ++ ": " ++ dumpsVal level v ++ ",\n" ++
    dumpsObjItems level rest

end

def jsonDumpsIndent2 (v : Json) : String := dumpsVal 0 v

/-! ### Data model and backends

SearchHit is the normalized {title, url, snippet} record ScoutAgent.search
produces; EnrichedProduct adds the model summary, as built in
ShopSage.run_pipeline.  A RawResult is one item of the results array of
the search response, each field optional as result.get(key, "") allows.
The search backend oracle covers everything inside the try block of
ScoutAgent.search: failure stands for a transport error, a non-success
status, an unparseable body, or any malformed shape raising inside the
loop — all caught by the except clause; a response JSON without a
results key is success [] via data.get("results", []).  The generation
backend oracle covers the inside of the try block of
JudgeAgent._call_openai: ok carries the message content, error any
raised exception. -/

structure SearchHit where
  title : String
  url : String
  snippet : String
deriving DecidableEq

structure EnrichedProduct where
  title : String
  url : String
  snippet : String
  summary : String
deriving DecidableEq

structure RawResult where
  title : Option String
  url : Option String
  content : Option String
deriving DecidableEq

inductive SearchResponse where
  | failure
  | success (results : List RawResult)

def SearchBackend := String → Nat → SearchResponse

structure GenRequest where
  system : String
  user : String
  jsonMode : Bool
deriving DecidableEq

def GenBackend := GenRequest → Except Unit String

/-! ### ScoutAgent.search -/

/-- One item of the results array, normalized: result.get with default
empty strings, the content clipped to its first 500 code points. -/
def normalizeResult (r : RawResult) : SearchHit :=
  ⟨r.title.getD "", r.url.getD "", pySlice (r.content.getD "") 500⟩

/-- ScoutAgent.search: on failure the except clause returns the empty
list; on success every response item is normalized. -/
def search (backend : SearchBackend) (query : String) (max_results : Nat := 8) :
    List SearchHit :=
  match backend query max_results with
  | .failure => []
  | .success results => results.map normalizeResult

/-! ### JudgeAgent -/

/-- JudgeAgent._call_openai: the trimmed message content on success, the
empty string when the call raised. -/
def callOpenai (backend : GenBackend) (system user : String)
    (jsonMode : Bool := false) : String :=
  match backend ⟨system, user, jsonMode⟩ with
  | .ok content => pyStrip content
  | .error _ => ""

def extractSystemPrompt : String :=
  "You are a meticulous shopping researcher. Extract and summarize:\n        1. Key specifications\n        2. Price (in USD if available)\n        3. Main pros and cons\n        4. Any notable features\n        \n        Format as a concise summary."

/-- JudgeAgent.extract_product_info. -/
def extract_product_info (backend : GenBackend) (snippet : String) : String :=
  callOpenai backend extractSystemPrompt snippet

def judgeSystemPrompt : String :=
  "You are an expert tech reviewer.\n        Analyze the products and return a JSON response with:\n        - winner: string (best overall product or chosen between A/B)\n        - ranking: list (ordered product names from best to worst)\n        - reasons: list of strings (key reasons for the recommendation)\n        \n        Consider factors like value, specs, reliability, and user needs."

def productJson (p : EnrichedProduct) : Json :=
  .obj [("title", .str p.title), ("url", .str p.url),
        ("snippet", .str p.snippet), ("summary", .str p.summary)]

def judgeUserPrompt (question : String) (products : List EnrichedProduct) : String :=
  "Question: " ++ question ++ "\n\nProduct briefs:\n" ++
  jsonDumpsIndent2 (.arr (products.map productJson))

def fallbackVerdict : Json :=
  .obj [("winner", .str "Unable to determine"),
        ("ranking", .arr []),
        ("reasons", .arr [.str "Error parsing recommendation"])]

/-- The text judge_products feeds to json.loads. -/
def judgeResponse (backend : GenBackend) (question : String)
    (products : List EnrichedProduct) : String :=
  callOpenai backend judgeSystemPrompt (judgeUserPrompt question products) true

/-- JudgeAgent.judge_products: the parsed response, whatever JSON value
it is, or the fallback structure when parsing fails. -/
def judge_products (backend : GenBackend) (question : String)
    (products : List EnrichedProduct) : Json :=
  match jsonLoads (judgeResponse backend question products) with
  | some v => v
  | none => fallbackVerdict

/-! ### ShopSage.run_pipeline -/

/-- The five-field result dict; winner, ranking and reasons carry
whatever JSON values verdict.get returned. -/
structure PipelineResult where
  query : String
  winner : Json
  ranking : Json
  reasons : Json
  sources : List EnrichedProduct

/-- Python verdict.get(key, default): a dict lookup with a default, an
AttributeError when the receiver is not a dict. -/
def pyDictGet (v : Json) (key : String) (default : Json) : Except String Json :=
  match v with
  | .obj kvs => .ok ((lookupLast kvs key).getD default)
  | _ => .error "AttributeError: object has no attribute get"

/-- The search queries run_pipeline issues, each with its max_results:
the two stripped regex groups at 4 on a vs match, the whole question at
the default 8 otherwise. -/
def pipelineSearchCalls (question : String) : List (String × Nat) :=
  match vsSearch question with
  | some (a, b) => [(pyStrip a, 4), (pyStrip b, 4)]
  | none => [(question, 8)]

/-- The hit list run_pipeline builds: the results for A concatenated
before the results for B on a vs match, one plain search otherwise. -/
def pipelineHits (searchB : SearchBackend) (question : String) : List SearchHit :=
  match vsSearch question with
  | some (a, b) =>
    search searchB (pyStrip a) 4 ++ search searchB (pyStrip b) 4
  | none => search searchB question

/-- The enrichment loop of run_pipeline: one fresh record per hit, in
order, copying title, url and snippet and attaching the extracted
summary.  The standalone enrich function produces the same values
(it stores the summary into the hit dict in place; the value content is
identical). -/
def enrichHits (genB : GenBackend) (hits : List SearchHit) : List EnrichedProduct :=
  hits.map (fun h => ⟨h.title, h.url, h.snippet, extract_product_info genB h.snippet⟩)

def extractRequest (snippet : String) : GenRequest :=
  ⟨extractSystemPrompt, snippet, false⟩

def judgeRequest (question : String) (products : List EnrichedProduct) : GenRequest :=
  ⟨judgeSystemPrompt, judgeUserPrompt question products, true⟩

/-- A full run: the backend call traces, the intermediate values, and
the outcome.  result is an Except because verdict.get raises when the
judge response parsed to a JSON value that is not an object; every other
failure was already absorbed upstream. -/
structure PipelineRun where
  searchCalls : List (String × Nat)
  genCalls : List GenRequest
  hits : List SearchHit
  enriched : List EnrichedProduct
  verdict : Json
  result : Except String PipelineResult

def run_pipeline (searchB : SearchBackend) (genB : GenBackend)
    (question : String) : PipelineRun :=
  let hits := pipelineHits searchB question
  let enriched := enrichHits genB hits
  let verdict := judge_products genB question enriched
  let result :=
    match pyDictGet verdict "winner" (.str ""),
          pyDictGet verdict "ranking" (.arr []),
          pyDictGet verdict "reasons" (.arr []) with
    | .ok w, .ok rk, .ok rs =>
      .ok ⟨question, w, rk, rs, enriched.take 4⟩
    | .error e, _, _ => .error e
    | _, .error e, _ => .error e
    | _, _, .error e => .error e
  { searchCalls := pipelineSearchCalls question
    genCalls := hits.map (fun h => extractRequest h.snippet) ++
                [judgeRequest question enriched]
    hits := hits
    enriched := enriched
    verdict := verdict
    result := result }

/-- Is the parse outcome of the judge response one the result assembly
survives: unparseable (the fallback object is substituted) or a JSON
object (dict lookups succeed)? -/
def judgeParsesSafely : Option Json → Bool
  | none => true
  | some (.obj _) => true
  | some _ => false

/-! ### Concrete backends used to instantiate the theorems -/

def wSearchFail : SearchBackend := fun _ _ => .failure

def wSearch6 : SearchBackend :=
  fun _ _ => .success (List.replicate 6 ⟨some "t", some "u", some "c"⟩)

def wGenFail : GenBackend := fun _ => .error ()

def wGenNull : GenBackend := fun _ => .ok "null"

def wGenText : GenBackend := fun _ => .ok "I cannot decide"

def wGenEmptyObj : GenBackend := fun _ => .ok "\x7b\x7d"

def wProduct : EnrichedProduct := ⟨"t", "u", "c", ""⟩

def wResult6 : PipelineResult :=
  ⟨"best tv", .str "Unable to determine", .arr [],
   .arr [.str "Error parsing recommendation"], List.replicate 4 wProduct⟩

def wLong : String := String.mk (List.replicate 600 'x')

def wRawLong : RawResult := ⟨some "t", some "u", some wLong⟩

end ShopSage

namespace ShopSage

/-- When the verdict is a JSON object, the three dict lookups succeed
and the result record is assembled from them. -/
theorem result_of_obj_verdict (searchB : SearchBackend) (genB : GenBackend)
    (q : String) (kvs : List (String × Json))
    (h : judge_products genB q (enrichHits genB (pipelineHits searchB q)) = .obj kvs) :
    (run_pipeline searchB genB q).result =
      .ok ⟨q, (lookupLast kvs "winner").getD (.str ""),
           (lookupLast kvs "ranking").getD (.arr []),
           (lookupLast kvs "reasons").getD (.arr []),
           (enrichHits genB (pipelineHits searchB q)).take 4⟩ := by
  simp [run_pipeline, h, pyDictGet]

/-- C1: a question matching the vs shape yields exactly two search
calls at max_results 4, on the stripped first and second spans in that
order, and the hit list fed to enrichment is the results for A
concatenated before the results for B. -/
theorem claim_C1 (searchB : SearchBackend) (genB : GenBackend) (q a b : String)
    (h : vsSearch q = some (a, b)) :
    (run_pipeline searchB genB q).searchCalls = [(pyStrip a, 4), (pyStrip b, 4)] ∧
    (run_pipeline searchB genB q).hits =
      search searchB (pyStrip a) 4 ++ search searchB (pyStrip b) 4 ∧
    (run_pipeline searchB genB q).enriched =
      enrichHits genB (search searchB (pyStrip a) 4 ++ search searchB (pyStrip b) 4) := by
  refine ⟨?_, ?_, ?_⟩ <;>
    simp [run_pipeline, pipelineSearchCalls, pipelineHits, h]

/-- C1 witness: the question about the two phones issues exactly the
two 4-result search calls the spec names, in order. -/
theorem claim_C1_witness :
    vsSearch "iPhone 15 Pro vs Pixel 8 Pro" = some ("iPhone 15 Pro", "Pixel 8 Pro") ∧
    (run_pipeline wSearch6 wGenFail "iPhone 15 Pro vs Pixel 8 Pro").searchCalls =
      [("iPhone 15 Pro", 4), ("Pixel 8 Pro", 4)] ∧
    (run_pipeline wSearch6 wGenFail "iPhone 15 Pro vs Pixel 8 Pro").hits =
      search wSearch6 "iPhone 15 Pro" 4 ++ search wSearch6 "Pixel 8 Pro" 4 :=
  ⟨by rfl,
   (claim_C1 wSearch6 wGenFail "iPhone 15 Pro vs Pixel 8 Pro"
     "iPhone 15 Pro" "Pixel 8 Pro" (by rfl)).1,
   (claim_C1 wSearch6 wGenFail "iPhone 15 Pro vs Pixel 8 Pro"
     "iPhone 15 Pro" "Pixel 8 Pro" (by rfl)).2.1⟩

/-- C2: a question not matching the vs shape yields exactly one search
call, on the whole question, at the default max_results 8. -/
theorem claim_C2 (searchB : SearchBackend) (genB : GenBackend) (q : String)
    (h : vsSearch q = none) :
    (run_pipeline searchB genB q).searchCalls = [(q, 8)] ∧
    (run_pipeline searchB genB q).hits = search searchB q 8 := by
  constructor <;> simp [run_pipeline, pipelineSearchCalls, pipelineHits, h]

/-- C2 witness: a plain question issues the single 8-result call. -/
theorem claim_C2_witness :
    vsSearch "best headphones under $500" = none ∧
    (run_pipeline wSearch6 wGenFail "best headphones under $500").searchCalls =
      [("best headphones under $500", 8)] :=
  ⟨by rfl,
   (claim_C2 wSearch6 wGenFail "best headphones under $500" (by rfl)).1⟩

/-- C3: whenever a result is returned, its sources field is the first
four enriched products in order, hence never more than four entries. -/
theorem claim_C3 (searchB : SearchBackend) (genB : GenBackend) (q : String)
    (r : PipelineResult) (h : (run_pipeline searchB genB q).result = .ok r) :
    r.sources.length ≤ 4 ∧
    r.sources = (run_pipeline searchB genB q).enriched.take 4 := by
  obtain ⟨rq, rw_, rrk, rrs, rsrc⟩ := r
  simp only [run_pipeline] at h ⊢
  cases hv : judge_products genB q (enrichHits genB (pipelineHits searchB q)) <;>
    rw [hv] at h <;> simp [pyDictGet] at h
  obtain ⟨-, -, -, -, h5⟩ := h
  subst h5
  exact ⟨List.length_take_le _ _, rfl⟩

/-- C3 witness: six products are enriched, four are kept as sources. -/
theorem claim_C3_witness :
    (run_pipeline wSearch6 wGenFail "best tv").result = .ok wResult6 ∧
    wResult6.sources.length ≤ 4 ∧
    wResult6.sources = (run_pipeline wSearch6 wGenFail "best tv").enriched.take 4 :=
  ⟨by rfl,
   (claim_C3 wSearch6 wGenFail "best tv" wResult6 (by rfl)).1,
   (claim_C3 wSearch6 wGenFail "best tv" wResult6 (by rfl)).2⟩

/-- C4: whenever the text reaching json.loads in judge_products fails to
parse — including the empty string a failed backend call leaves — the
fixed fallback Verdict is returned. -/
theorem claim_C4 (genB : GenBackend) (q : String) (products : List EnrichedProduct)
    (h : jsonLoads (judgeResponse genB q products) = none) :
    judge_products genB q products = fallbackVerdict := by
  simp [judge_products, h]

/-- C4 witness: the non-JSON reply I cannot decide falls back. -/
theorem claim_C4_witness :
    jsonLoads (judgeResponse wGenText "q" []) = none ∧
    judge_products wGenText "q" [] = fallbackVerdict :=
  ⟨by rfl, claim_C4 wGenText "q" [] (by rfl)⟩

/-- C5 counterexample: when the judge backend answers the valid JSON
text null, json.loads succeeds with a non-dict, verdict.get raises, and
run_pipeline propagates the exception instead of returning a result —
refuting the claim that no backend behavior can raise. -/
theorem claim_C5_counterexample :
    (run_pipeline wSearchFail wGenNull "pick one").result =
      .error "AttributeError: object has no attribute get" := by rfl

/-- C5 amended: provided the judge response either fails to parse or
parses to a JSON object, run_pipeline returns a well-formed result (and
under total backend failure the response is empty, which fails to
parse, so this covers the spec scenario). -/
theorem claim_C5_amended (searchB : SearchBackend) (genB : GenBackend) (q : String)
    (h : judgeParsesSafely (jsonLoads (judgeResponse genB q
           (enrichHits genB (pipelineHits searchB q)))) = true) :
    ∃ r : PipelineResult,
      (run_pipeline searchB genB q).result = .ok r ∧ r.query = q := by
  rcases ho : jsonLoads (judgeResponse genB q (enrichHits genB (pipelineHits searchB q)))
    with _ | v
  · have hobj : judge_products genB q (enrichHits genB (pipelineHits searchB q)) =
        .obj [("winner", .str "Unable to determine"), ("ranking", .arr []),
              ("reasons", .arr [.str "Error parsing recommendation"])] := by
      simp [judge_products, ho, fallbackVerdict]
    exact ⟨_, result_of_obj_verdict searchB genB q _ hobj, rfl⟩
  · cases v with
    | obj kvs =>
      have hobj : judge_products genB q (enrichHits genB (pipelineHits searchB q)) =
          .obj kvs := by simp [judge_products, ho]
      exact ⟨_, result_of_obj_verdict searchB genB q kvs hobj, rfl⟩
    | null => rw [ho] at h; simp [judgeParsesSafely] at h
    | bool b => rw [ho] at h; simp [judgeParsesSafely] at h
    | num lex => rw [ho] at h; simp [judgeParsesSafely] at h
    | str s => rw [ho] at h; simp [judgeParsesSafely] at h
    | arr items => rw [ho] at h; simp [judgeParsesSafely] at h

/-- C5 witness: under a failing search backend and a free-text judge
reply the run still returns a result carrying the question. -/
theorem claim_C5_witness :
    judgeParsesSafely (jsonLoads (judgeResponse wGenText "pick one"
      (enrichHits wGenText (pipelineHits wSearchFail "pick one")))) = true ∧
    ∃ r : PipelineResult,
      (run_pipeline wSearchFail wGenText "pick one").result = .ok r ∧
      r.query = "pick one" :=
  ⟨by rfl, claim_C5_amended wSearchFail wGenText "pick one" (by rfl)⟩

/-- C6: the normalized snippet is the content clipped to its first 500
code points: never longer than 500, and exactly the first 500 when the
content is longer. -/
theorem claim_C6 (r : RawResult) :
    (normalizeResult r).snippet = pySlice (r.content.getD "") 500 ∧
    (normalizeResult r).snippet.length ≤ 500 ∧
    ((r.content.getD "").length > 500 → (normalizeResult r).snippet.length = 500) := by
  refine ⟨rfl, ?_, fun h => ?_⟩
  · change ((r.content.getD "").data.take 500).length ≤ 500
    exact List.length_take_le _ _
  · change ((r.content.getD "").data.take 500).length = 500
    change (r.content.getD "").data.length > 500 at h
    rw [List.length_take]
    omega

set_option maxRecDepth 4096 in
/-- C6 witness: 600 characters of content store exactly 500. -/
theorem claim_C6_witness :
    wLong.length > 500 ∧ (normalizeResult wRawLong).snippet.length = 500 :=
  ⟨by decide, (claim_C6 wRawLong).2.2 (by decide)⟩

/-- C7: a failing search backend call yields the empty hit list rather
than an error. -/
theorem claim_C7 (backend : SearchBackend) (q : String) (k : Nat)
    (h : backend q k = .failure) : search backend q k = [] := by
  simp [search, h]

/-- C7 witness: the always-failing backend yields no hits. -/
theorem claim_C7_witness :
    wSearchFail "anything" 8 = .failure ∧ search wSearchFail "anything" 8 = [] :=
  ⟨rfl, claim_C7 wSearchFail "anything" 8 rfl⟩

/-- C8: with zero hits, enrichment yields zero products and the judge is
still called exactly once, on the empty product list. -/
theorem claim_C8 (searchB : SearchBackend) (genB : GenBackend) (q : String)
    (h : (run_pipeline searchB genB q).hits = []) :
    (run_pipeline searchB genB q).enriched = [] ∧
    (run_pipeline searchB genB q).genCalls = [judgeRequest q []] ∧
    (run_pipeline searchB genB q).verdict = judge_products genB q [] := by
  simp only [run_pipeline] at h ⊢
  rw [h]
  simp [enrichHits, h]

/-- C8 witness: a failing search still reaches the judge once with the
empty list. -/
theorem claim_C8_witness :
    (run_pipeline wSearchFail wGenFail "best mouse").hits = [] ∧
    (run_pipeline wSearchFail wGenFail "best mouse").genCalls =
      [judgeRequest "best mouse" []] :=
  ⟨by rfl, (claim_C8 wSearchFail wGenFail "best mouse" (by rfl)).2.1⟩

/-- C9: enrichment maps each hit, in order, to a product copying its
title, url and snippet and attaching only the extracted summary. -/
theorem claim_C9 (genB : GenBackend) (hits : List SearchHit) :
    (enrichHits genB hits).length = hits.length ∧
    ∀ i : Nat,
      ((enrichHits genB hits)[i]?).map EnrichedProduct.title =
        (hits[i]?).map SearchHit.title ∧
      ((enrichHits genB hits)[i]?).map EnrichedProduct.url =
        (hits[i]?).map SearchHit.url ∧
      ((enrichHits genB hits)[i]?).map EnrichedProduct.snippet =
        (hits[i]?).map SearchHit.snippet ∧
      ((enrichHits genB hits)[i]?).map EnrichedProduct.summary =
        (hits[i]?).map (fun h => extract_product_info genB h.snippet) := by
  refine ⟨by simp [enrichHits], fun i => ?_⟩
  cases hi : hits[i]? <;>
    simp [enrichHits, List.getElem?_map, hi]

/-- C10: a judge reply parsing to a JSON object with missing keys leads
to per-key defaults in the result — empty string winner, empty ranking,
empty reasons — not to the fallback Verdict. -/
theorem claim_C10 (searchB : SearchBackend) (genB : GenBackend) (q : String)
    (kvs : List (String × Json))
    (h : jsonLoads (judgeResponse genB q (enrichHits genB (pipelineHits searchB q))) =
         some (.obj kvs)) :
    ∃ r : PipelineResult,
      (run_pipeline searchB genB q).result = .ok r ∧
      (lookupLast kvs "winner" = none → r.winner = .str "") ∧
      (lookupLast kvs "ranking" = none → r.ranking = .arr []) ∧
      (lookupLast kvs "reasons" = none → r.reasons = .arr []) := by
  have hobj : judge_products genB q (enrichHits genB (pipelineHits searchB q)) =
      .obj kvs := by simp [judge_products, h]
  refine ⟨_, result_of_obj_verdict searchB genB q kvs hobj,
    fun hn => ?_, fun hn => ?_, fun hn => ?_⟩ <;> simp [hn]

/-- C10 witness: the reply of an empty JSON object produces the empty
defaults for all three keys. -/
theorem claim_C10_witness :
    jsonLoads (judgeResponse wGenEmptyObj "best cam"
      (enrichHits wGenEmptyObj (pipelineHits wSearchFail "best cam"))) =
      some (.obj []) ∧
    ∃ r : PipelineResult,
      (run_pipeline wSearchFail wGenEmptyObj "best cam").result = .ok r ∧
      (lookupLast [] "winner" = none → r.winner = .str "") ∧
      (lookupLast [] "ranking" = none → r.ranking = .arr []) ∧
      (lookupLast [] "reasons" = none → r.reasons = .arr []) :=
  ⟨by rfl, claim_C10 wSearchFail wGenEmptyObj "best cam" [] (by rfl)⟩

end ShopSage
